import Mathlib

/-!
Shallow embedding of the scheme-registration portal backend (src/server.js):
the user / application data model, the register and login handlers, the
authentication and admin middleware, and the application-status and review
handlers.  External libraries are modelled by their contracts: bcrypt as a
caller-supplied one-way hash function, jsonwebtoken as an injectively encoded
signed-claims string, mongoose save-time enum validation as an explicit check
against the schema's enum list.
-/

namespace SchemePortal

/-- JS truthiness of an optional string request field: `undefined` and the
empty string are falsy (`!email`, `role || 'citizen'`). -/
def falsy : Option String → Bool
  | none => true
  | some s => s.isEmpty

/-- userSchema: email (unique, required), password (the stored hash),
role (enum citizen/admin, default citizen). -/
structure User where
  id : Nat
  email : String
  password : String
  role : String
deriving DecidableEq

/-- The role enum of userSchema. -/
def roleEnum : List String := ["citizen", "admin"]

/-- The status enum of applicationSchema. -/
def statusEnum : List String := ["pending", "approved", "rejected"]

/-- applicationSchema: userId, schemeId, formData, status (enum, default
pending), adminRemarks (unset until a review writes it). -/
structure Application where
  id : Nat
  userId : Nat
  schemeId : Nat
  formData : String
  status : String
  adminRemarks : Option String
deriving DecidableEq

/-- The persistent store: the User and Application collections, with the
next fresh ObjectIds. -/
structure DB where
  users : List User
  applications : List Application
  nextUserId : Nat
  nextAppId : Nat
deriving DecidableEq

/-- User.findOne({ email }). -/
def findUserByEmail (db : DB) (email : String) : Option User :=
  db.users.find? (fun u => u.email == email)

/-- Application.findById(id). -/
def findApplicationById (db : DB) (i : Nat) : Option Application :=
  db.applications.find? (fun a => a.id == i)

/-- `role || 'citizen'` in the register handler. -/
def effRole (role : Option String) : String :=
  if falsy role then "citizen" else role.getD ""

/-- Outcome of POST /api/register: 201 with the new userId, or an error
status and message. -/
inductive RegisterResult where
  | created (userId : Nat)
  | err (httpStatus : Nat) (message : String)
deriving DecidableEq

/-- POST /api/register (src/server.js lines 156-197): reject missing
email/password with 400, reject an existing email with 400, otherwise hash
the password, build the user with `role || 'citizen'`, and save it; a role
outside the schema enum fails mongoose validation at save and is caught as
a 500. -/
def register (hash : String → String) (db : DB)
    (email password role : Option String) : RegisterResult × DB :=
  if falsy email || falsy password then
    (.err 400 ("Email and password are required"), db)
  else
    match findUserByEmail db (email.getD "") with
    | some _ => (.err 400 ("User already exists"), db)
    | none =>
      let hashedPassword := hash (password.getD "")
      let r := effRole role
      if roleEnum.contains r then
        let u : User := ⟨db.nextUserId, email.getD "", hashedPassword, r⟩
        (.created u.id,
          { db with users := db.users ++ [u], nextUserId := db.nextUserId + 1 })
      else
        (.err 500 ("Error registering user"), db)

/-- The claims jwt.sign embeds in the token: { id, role, email }. -/
structure TokenPayload where
  id : Nat
  role : String
  email : String
deriving DecidableEq

/-- A decoded JWT: the payload claims, the absolute expiry, and the
signature. -/
structure Token where
  payload : TokenPayload
  exp : Nat
  sig : String
deriving DecidableEq

/-- Unary encoding of a natural number, terminated by a dot. -/
def encNat : Nat → List Char
  | 0 => ['.']
  | n + 1 => 'x' :: encNat n

/-- Parse back the unary encoding. -/
def parseNat : List Char → Option (Nat × List Char)
  | '.' :: rest => some (0, rest)
  | 'x' :: rest =>
    match parseNat rest with
    | some (n, r) => some (n + 1, r)
    | none => none
  | _ => none

/-- Length-prefixed string encoding. -/
def encStr (s : String) : List Char := encNat s.length ++ s.data

/-- Parse back a length-prefixed string. -/
def parseStr (cs : List Char) : Option (String × List Char) :=
  match parseNat cs with
  | some (n, rest) =>
    if n ≤ rest.length then some (String.mk (rest.take n), rest.drop n)
    else none
  | none => none

/-- The HMAC over the claims and expiry: modelled as an injective
function of the secret and the signed content. -/
def tokenSig (secret : String) (p : TokenPayload) (exp : Nat) : String :=
  String.mk (encStr secret ++ encNat p.id ++ encStr p.role ++
    encStr p.email ++ encNat exp)

/-- Serialize a token to its wire string. -/
def encodeToken (t : Token) : String :=
  String.mk (encNat t.payload.id ++ encNat t.exp ++ encStr t.payload.role ++
    encStr t.payload.email ++ encStr t.sig)

/-- Deserialize a wire string back to a token. -/
def decodeToken (s : String) : Option Token :=
  match parseNat s.data with
  | none => none
  | some (i, r1) =>
    match parseNat r1 with
    | none => none
    | some (exp, r2) =>
      match parseStr r2 with
      | none => none
      | some (role, r3) =>
        match parseStr r3 with
        | none => none
        | some (email, r4) =>
          match parseStr r4 with
          | none => none
          | some (sig, r5) =>
            if r5.isEmpty then some ⟨⟨i, role, email⟩, exp, sig⟩ else none

/-- jwt.sign(payload, secret, { expiresIn }): a self-contained signed token
expiring `expiresIn` seconds from now. -/
def jwtSign (secret : String) (p : TokenPayload) (expiresIn : Nat)
    (now : Nat) : String :=
  encodeToken ⟨p, now + expiresIn, tokenSig secret p (now + expiresIn)⟩

/-- jwt.verify(token, secret): succeeds with the payload exactly when the
string decodes, the signature matches the secret and content, and the token
has not expired. -/
def jwtVerify (secret : String) (now : Nat) (s : String) :
    Option TokenPayload :=
  match decodeToken s with
  | none => none
  | some t =>
    if t.sig == tokenSig secret t.payload t.exp && decide (now < t.exp) then
      some t.payload
    else none

/-- Outcome of POST /api/login. -/
inductive LoginResult where
  | ok (token : String) (role : String) (email : String)
  | err (httpStatus : Nat) (message : String)
deriving DecidableEq

/-- POST /api/login (src/server.js lines 199-264): 400 on missing fields,
401 with one fixed message when the email matches no user, 401 with the
same fixed message when bcrypt.compare rejects the password, otherwise a
24h token carrying { id, role, email }. -/
def login (hash : String → String) (secret : String) (now : Nat) (db : DB)
    (email password : Option String) : LoginResult :=
  if falsy email || falsy password then
    .err 400 ("Email and password are required")
  else
    match findUserByEmail db (email.getD "") with
    | none => .err 401 ("Invalid email or password")
    | some user =>
      if hash (password.getD "") == user.password then
        .ok (jwtSign secret ⟨user.id, user.role, user.email⟩ 86400 now)
          user.role user.email
      else
        .err 401 ("Invalid email or password")

/-- JS String.prototype.split with a one-character separator, on the
character list of the string. -/
def splitChars (sep : Char) : List Char → List (List Char)
  | [] => [[]]
  | c :: rest =>
    let r := splitChars sep rest
    if c == sep then [] :: r
    else
      match r with
      | [] => [[c]]
      | h :: t => (c :: h) :: t

/-- `authHeader && authHeader.split(' ')[1]` with JS falsiness: the bearer
token is absent when the header is absent, has no second space-separated
component, or that component is empty. -/
def extractToken (authHeader : Option String) : Option String :=
  match authHeader with
  | none => none
  | some h =>
    match (splitChars (' ') h.data)[1]? with
    | none => none
    | some t => if t.isEmpty then none else some (String.mk t)

/-- authenticateToken middleware (src/server.js lines 140-149): 401 when no
bearer token is present, 403 when jwt.verify fails, otherwise the verified
payload is attached as req.user. -/
def authenticateToken (secret : String) (now : Nat)
    (authHeader : Option String) : Except (Nat × String) TokenPayload :=
  match extractToken authHeader with
  | none => .error (401, "No token provided")
  | some tok =>
    match jwtVerify secret now tok with
    | none => .error (403, "Invalid token")
    | some payload => .ok payload

/-- isAdmin middleware (src/server.js lines 151-154). -/
def isAdmin (payload : TokenPayload) : Except (Nat × String) Unit :=
  if payload.role != "admin" then .error (403, "Admin access required")
  else .ok ()

/-- The gate in front of the admin routes: authenticateToken then isAdmin. -/
def adminGate (secret : String) (now : Nat) (authHeader : Option String) :
    Except (Nat × String) TokenPayload :=
  match authenticateToken secret now authHeader with
  | .error e => .error e
  | .ok p =>
    match isAdmin p with
    | .error e => .error e
    | .ok _ => .ok p

/-- POST /api/apply (src/server.js lines 271-284): a new application owned
by the requester, with schema defaults status pending and no adminRemarks. -/
def applyForScheme (db : DB) (user : TokenPayload) (schemeId : Nat)
    (formData : String) : Nat × DB :=
  let a : Application :=
    ⟨db.nextAppId, user.id, schemeId, formData, "pending", none⟩
  (a.id,
    { db with applications := db.applications ++ [a],
              nextAppId := db.nextAppId + 1 })

/-- Outcome of GET /api/application/:id/status. -/
inductive StatusResult where
  | ok (status : String)
  | err (httpStatus : Nat) (message : String)
deriving DecidableEq

/-- GET /api/application/:id/status (src/server.js lines 286-296): 403
Unauthorized when the application is missing or its owner is not the
requester, otherwise the status. -/
def getStatus (db : DB) (appId : Nat) (user : TokenPayload) : StatusResult :=
  match findApplicationById db appId with
  | none => .err 403 ("Unauthorized")
  | some a =>
    if a.userId != user.id then .err 403 ("Unauthorized")
    else .ok a.status

/-- Outcome of PUT /api/admin/application/:id/review. -/
inductive ReviewResult where
  | ok (message : String)
  | err (httpStatus : Nat) (message : String)
deriving DecidableEq

/-- Persist an updated application document. -/
def saveApplication (db : DB) (a : Application) : DB :=
  { db with applications :=
      db.applications.map (fun b => if b.id == a.id then a else b) }

/-- PUT /api/admin/application/:id/review (src/server.js lines 303-315):
404 when the id resolves to no application; otherwise status := decision
and adminRemarks := remarks are saved together; a decision outside the
schema's status enum fails mongoose validation at save and is caught as a
400, leaving the store unchanged. -/
def review (db : DB) (appId : Nat) (decision remarks : String) :
    ReviewResult × DB :=
  match findApplicationById db appId with
  | none => (.err 404 ("Application not found"), db)
  | some a =>
    if statusEnum.contains decision then
      (.ok ("Application updated"),
        saveApplication db { a with status := decision,
                                    adminRemarks := some remarks })
    else
      (.err 400 ("Error reviewing application"), db)

/-! ## Round-trip of the token wire format -/

theorem parseNat_encNat (n : Nat) (rest : List Char) :
    parseNat (encNat n ++ rest) = some (n, rest) := by
  induction n with
  | zero => simp [encNat, parseNat]
  | succ k ih => simp [encNat, parseNat, ih]

theorem parseStr_encStr (s : String) (rest : List Char) :
    parseStr (encStr s ++ rest) = some (s, rest) := by
  have h1 : encStr s ++ rest = encNat s.length ++ (s.data ++ rest) := by
    simp [encStr]
  have hlen : s.data.length = s.length := rfl
  rw [h1]
  unfold parseStr
  rw [parseNat_encNat]
  simp only [← hlen, List.length_append, Nat.le_add_right, if_pos,
    List.take_left, List.drop_left]

theorem parseStr_encStr_nil (s : String) : parseStr (encStr s) = some (s, []) := by
  have h := parseStr_encStr s []
  simpa using h

theorem decodeToken_encodeToken (t : Token) :
    decodeToken (encodeToken t) = some t := by
  obtain ⟨⟨i, role, email⟩, exp, sig⟩ := t
  unfold decodeToken encodeToken
  simp only [List.append_assoc, parseNat_encNat, parseStr_encStr,
    parseStr_encStr_nil, List.isEmpty_nil, if_true]

theorem jwtVerify_jwtSign (secret : String) (p : TokenPayload)
    (expiresIn now : Nat) (h : 0 < expiresIn) :
    jwtVerify secret now (jwtSign secret p expiresIn now) = some p := by
  unfold jwtVerify jwtSign
  rw [decodeToken_encodeToken]
  simp [Nat.lt_add_of_pos_right h]

/-! ## Concrete fixtures used by witnesses and counterexamples -/

/-- A concrete stand-in for the bcrypt hash in witnesses: it never returns
its input (the output is one character longer). -/
def exHash (p : String) : String := "#" ++ p

/-- An empty store. -/
def exDB0 : DB := ⟨[], [], 0, 0⟩

/-- A store holding one registered citizen. -/
def exDB2 : DB := ⟨[⟨0, "a@x", "#pw", "citizen"⟩], [], 1, 0⟩

/-! ## Claims -/

/-- Claim C2: register fails with the 400 missing-fields error when the
email or the password is absent (falsy), and with the 400 conflict error
when a user with the same email already exists; in the conflict case the
store is returned unchanged, so no duplicate record is created. -/
theorem register_missing_and_conflict (hash : String → String) (db : DB)
    (email password role : Option String) :
    (falsy email = true ∨ falsy password = true →
      register hash db email password role =
        (.err 400 ("Email and password are required"), db)) ∧
    (falsy email = false → falsy password = false →
      ∀ u, findUserByEmail db (email.getD "") = some u →
      register hash db email password role =
        (.err 400 ("User already exists"), db)) := by
  constructor
  · intro h
    unfold register
    rcases h with h | h <;> simp [h]
  · intro he hp u hu
    unfold register
    simp [he, hp, hu]

theorem register_missing_and_conflict_witness :
    (falsy (none : Option String) = true ∨ falsy (some ("pw")) = true) ∧
    register exHash exDB2 none (some ("pw")) none =
      (.err 400 ("Email and password are required"), exDB2) ∧
    falsy (some ("a@x")) = false ∧ falsy (some ("pw")) = false ∧
    findUserByEmail exDB2 ((some ("a@x")).getD "") =
      some ⟨0, "a@x", "#pw", "citizen"⟩ ∧
    register exHash exDB2 (some ("a@x")) (some ("pw")) none =
      (.err 400 ("User already exists"), exDB2) :=
  ⟨Or.inl rfl,
   (register_missing_and_conflict exHash exDB2 none (some ("pw")) none).1
     (Or.inl rfl),
   rfl, rfl, by decide,
   (register_missing_and_conflict exHash exDB2 (some ("a@x")) (some ("pw"))
     none).2 rfl rfl ⟨0, "a@x", "#pw", "citizen"⟩ (by decide)⟩

/-- Claim C3: a successful register (non-falsy email and password, email
not already present) stores the hash of the password and never the
plaintext, persists the user with role defaulted to citizen when no role
is supplied, and acknowledges with the new user's id. -/
theorem register_success_contract (hash : String → String) (db : DB)
    (email password : Option String)
    (he : falsy email = false) (hp : falsy password = false)
    (hnew : findUserByEmail db (email.getD "") = none)
    (hhash : hash (password.getD "") ≠ password.getD "") :
    ∃ u : User,
      register hash db email password none =
        (.created u.id,
          { db with users := db.users ++ [u],
                    nextUserId := db.nextUserId + 1 }) ∧
      u.password = hash (password.getD "") ∧
      u.password ≠ password.getD "" ∧
      u.role = "citizen" ∧
      u.id = db.nextUserId := by
  refine ⟨⟨db.nextUserId, email.getD "", hash (password.getD ""), "citizen"⟩,
    ?_, rfl, hhash, rfl, rfl⟩
  unfold register
  rw [he, hp, hnew]
  rfl

theorem register_success_contract_witness :
    falsy (some ("a@x")) = false ∧ falsy (some ("pw")) = false ∧
    findUserByEmail exDB0 ((some ("a@x")).getD "") = none ∧
    exHash ((some ("pw")).getD "") ≠ (some ("pw")).getD "" ∧
    ∃ u : User,
      register exHash exDB0 (some ("a@x")) (some ("pw")) none =
        (.created u.id,
          { exDB0 with users := exDB0.users ++ [u],
                       nextUserId := exDB0.nextUserId + 1 }) ∧
      u.password = exHash ((some ("pw")).getD "") ∧
      u.password ≠ (some ("pw")).getD "" ∧
      u.role = "citizen" ∧
      u.id = exDB0.nextUserId :=
  ⟨rfl, rfl, rfl, by decide,
   register_success_contract exHash exDB0 (some ("a@x")) (some ("pw"))
     rfl rfl rfl (by decide)⟩

/-- Claim C4: with both fields present, a login whose email matches no
stored user and a login with a stored email but a wrong password fail with
the identical error: same constructor, same 401 status, same message, so
the response does not reveal whether the email exists. -/
theorem login_uniform_invalid_credentials (hash : String → String)
    (secret : String) (now : Nat) (db : DB) (email password : Option String)
    (he : falsy email = false) (hp : falsy password = false) :
    (findUserByEmail db (email.getD "") = none →
      login hash secret now db email password =
        .err 401 ("Invalid email or password")) ∧
    (∀ u, findUserByEmail db (email.getD "") = some u →
      hash (password.getD "") ≠ u.password →
      login hash secret now db email password =
        .err 401 ("Invalid email or password")) := by
  constructor
  · intro h
    unfold login
    simp [he, hp, h]
  · intro u hu hne
    unfold login
    simp [he, hp, hu, hne]

theorem login_uniform_invalid_credentials_witness :
    falsy (some ("b@x")) = false ∧ falsy (some ("pw")) = false ∧
    findUserByEmail exDB2 ((some ("b@x")).getD "") = none ∧
    login exHash ("sec") 0 exDB2 (some ("b@x")) (some ("pw")) =
      .err 401 ("Invalid email or password") ∧
    falsy (some ("a@x")) = false ∧ falsy (some ("wrong")) = false ∧
    findUserByEmail exDB2 ((some ("a@x")).getD "") =
      some ⟨0, "a@x", "#pw", "citizen"⟩ ∧
    exHash ((some ("wrong")).getD "") ≠
      (⟨0, "a@x", "#pw", "citizen"⟩ : User).password ∧
    login exHash ("sec") 0 exDB2 (some ("a@x")) (some ("wrong")) =
      .err 401 ("Invalid email or password") :=
  ⟨rfl, rfl, by decide,
   (login_uniform_invalid_credentials exHash ("sec") 0 exDB2 (some ("b@x"))
     (some ("pw")) rfl rfl).1 (by decide),
   rfl, rfl, by decide, by decide,
   (login_uniform_invalid_credentials exHash ("sec") 0 exDB2 (some ("a@x"))
     (some ("wrong")) rfl rfl).2 ⟨0, "a@x", "#pw", "citizen"⟩ (by decide)
     (by decide)⟩

/-- A fresh, valid registration reduces to appending the new user. -/
theorem register_fresh (hash : String → String) (db : DB)
    (email password role : Option String)
    (he : falsy email = false) (hp : falsy password = false)
    (hnew : findUserByEmail db (email.getD "") = none)
    (hrole : roleEnum.contains (effRole role) = true) :
    register hash db email password role =
      (.created db.nextUserId,
        { db with
            users := db.users ++
              [⟨db.nextUserId, email.getD "", hash (password.getD ""),
                effRole role⟩],
            nextUserId := db.nextUserId + 1 }) := by
  unfold register
  rw [he, hp, hnew]
  simp only [hrole]
  rfl

/-- After a fresh registration, the email lookup finds the new user. -/
theorem findUser_after_register (hash : String → String) (db : DB)
    (email password role : Option String)
    (he : falsy email = false) (hp : falsy password = false)
    (hnew : findUserByEmail db (email.getD "") = none)
    (hrole : roleEnum.contains (effRole role) = true) :
    findUserByEmail (register hash db email password role).2
        (email.getD "") =
      some ⟨db.nextUserId, email.getD "", hash (password.getD ""),
        effRole role⟩ := by
  rw [register_fresh hash db email password role he hp hnew hrole]
  unfold findUserByEmail
  unfold findUserByEmail at hnew
  simp only [List.find?_append, hnew, Option.none_or]
  simp [List.find?]

/-- After a fresh registration, login with the same credentials issues the
24h token for the stored user. -/
theorem login_after_register (hash : String → String) (secret : String)
    (now : Nat) (db : DB) (email password role : Option String)
    (he : falsy email = false) (hp : falsy password = false)
    (hnew : findUserByEmail db (email.getD "") = none)
    (hrole : roleEnum.contains (effRole role) = true) :
    login hash secret now (register hash db email password role).2
        email password =
      .ok (jwtSign secret ⟨db.nextUserId, effRole role, email.getD ""⟩
          86400 now)
        (effRole role) (email.getD "") := by
  unfold login
  rw [he, hp,
    findUser_after_register hash db email password role he hp hnew hrole]
  simp

/-- Claim C5: registering a fresh valid email with a role from the schema
enum and then logging in with the same credentials succeeds, and the
returned token verifies to a payload whose role equals the role the user
was stored with. -/
theorem register_then_login_token_role (hash : String → String)
    (secret : String) (now : Nat) (db : DB)
    (email password role : Option String)
    (he : falsy email = false) (hp : falsy password = false)
    (hnew : findUserByEmail db (email.getD "") = none)
    (hrole : roleEnum.contains (effRole role) = true) :
    ∃ u : User,
      findUserByEmail (register hash db email password role).2
        (email.getD "") = some u ∧
      u.role = effRole role ∧
      login hash secret now (register hash db email password role).2
          email password =
        .ok (jwtSign secret ⟨u.id, u.role, u.email⟩ 86400 now)
          u.role u.email ∧
      jwtVerify secret now (jwtSign secret ⟨u.id, u.role, u.email⟩ 86400 now) =
        some ⟨u.id, u.role, u.email⟩ :=
  ⟨⟨db.nextUserId, email.getD "", hash (password.getD ""), effRole role⟩,
   findUser_after_register hash db email password role he hp hnew hrole,
   rfl,
   login_after_register hash secret now db email password role he hp hnew
     hrole,
   jwtVerify_jwtSign secret _ 86400 now (by norm_num)⟩

theorem register_then_login_token_role_witness :
    falsy (some ("a@x")) = false ∧ falsy (some ("pw")) = false ∧
    findUserByEmail exDB0 ((some ("a@x")).getD "") = none ∧
    roleEnum.contains (effRole (some ("admin"))) = true ∧
    ∃ u : User,
      findUserByEmail
        (register exHash exDB0 (some ("a@x")) (some ("pw"))
          (some ("admin"))).2 ((some ("a@x")).getD "") = some u ∧
      u.role = effRole (some ("admin")) ∧
      login exHash ("sec") 3 (register exHash exDB0 (some ("a@x"))
          (some ("pw")) (some ("admin"))).2 (some ("a@x")) (some ("pw")) =
        .ok (jwtSign ("sec") ⟨u.id, u.role, u.email⟩ 86400 3)
          u.role u.email ∧
      jwtVerify ("sec") 3 (jwtSign ("sec") ⟨u.id, u.role, u.email⟩ 86400 3) =
        some ⟨u.id, u.role, u.email⟩ :=
  ⟨rfl, rfl, rfl, by decide,
   register_then_login_token_role exHash ("sec") 3 exDB0 (some ("a@x"))
     (some ("pw")) (some ("admin")) rfl rfl rfl (by decide)⟩

/-! ### Fixtures for the application-status claims -/

/-- An application owned by user 1, still pending. -/
def exApp1 : Application := ⟨0, 1, 5, "form", "pending", none⟩

/-- A store holding only exApp1. -/
def exDB1 : DB := ⟨[], [exApp1], 2, 1⟩

/-- An authenticated admin requester who does not own exApp1. -/
def exAdmin : TokenPayload := ⟨2, "admin", "root@x"⟩

/-- The owner of exApp1. -/
def exOwner : TokenPayload := ⟨1, "citizen", "o@x"⟩

/-- Claim C1 counterexample: application 0 is owned by user 1 and stored,
yet the authenticated requester with the admin role and id 2 receives 403
Unauthorized instead of the status: holding the admin role does not grant
read access in the code. -/
theorem getStatus_admin_not_owner_cex :
    exAdmin.role = "admin" ∧ exApp1.userId ≠ exAdmin.id ∧
    findApplicationById exDB1 0 = some exApp1 ∧
    getStatus exDB1 0 exAdmin = .err 403 ("Unauthorized") ∧
    getStatus exDB1 0 exAdmin ≠ .ok exApp1.status := by decide

/-- Claim C1 (amended): getStatus consults only ownership: it returns the
status exactly when the requester's id equals the owning user's id, fails
with 403 Unauthorized for every other requester and for a missing
application, and the requester's role — admin included — is never
consulted. -/
theorem getStatus_owner_only (db : DB) (appId : Nat) (user : TokenPayload) :
    (∀ a, findApplicationById db appId = some a →
      (a.userId = user.id → getStatus db appId user = .ok a.status) ∧
      (a.userId ≠ user.id →
        getStatus db appId user = .err 403 ("Unauthorized"))) ∧
    (findApplicationById db appId = none →
      getStatus db appId user = .err 403 ("Unauthorized")) ∧
    (∀ r : String,
      getStatus db appId ⟨user.id, r, user.email⟩ =
        getStatus db appId user) := by
  refine ⟨?_, ?_, ?_⟩
  · intro a ha
    constructor
    · intro h
      unfold getStatus
      rw [ha]
      simp [h]
    · intro h
      unfold getStatus
      rw [ha]
      simp [h]
  · intro h
    unfold getStatus
    rw [h]
  · intro r
    unfold getStatus
    rfl

theorem getStatus_owner_only_witness :
    findApplicationById exDB1 0 = some exApp1 ∧
    exApp1.userId = exOwner.id ∧
    getStatus exDB1 0 exOwner = .ok exApp1.status :=
  ⟨by decide, rfl,
   ((getStatus_owner_only exDB1 0 exOwner).1 exApp1 (by decide)).1 rfl⟩

/-! ### Token fixtures for the middleware claims -/

/-- A payload carrying the admin role. -/
def exPayloadA : TokenPayload := ⟨1, "admin", "e"⟩

/-- A correctly signed admin token expiring at time 7. -/
def exTokA : String := encodeToken ⟨exPayloadA, 7, tokenSig ("s") exPayloadA 7⟩

/-- A request header carrying exTokA. -/
def exHdrA : Option String := some ("Bearer " ++ exTokA)

/-- A payload carrying the citizen role. -/
def exPayloadC : TokenPayload := ⟨1, "citizen", "e"⟩

/-- A correctly signed citizen token expiring at time 7. -/
def exTokC : String := encodeToken ⟨exPayloadC, 7, tokenSig ("s") exPayloadC 7⟩

/-- A request header carrying exTokC. -/
def exHdrC : Option String := some ("Bearer " ++ exTokC)

/-- Claim C6: the authentication gate answers 401 without further
processing when the authorization header or the bearer token is absent,
answers 403 when token verification fails (bad signature, expiry, or an
undecodable token), and otherwise attaches the verified payload for the
downstream handler. -/
theorem authenticateToken_gate (secret : String) (now : Nat)
    (authHeader : Option String) :
    (extractToken authHeader = none →
      authenticateToken secret now authHeader =
        .error (401, "No token provided")) ∧
    (∀ tok, extractToken authHeader = some tok →
      jwtVerify secret now tok = none →
      authenticateToken secret now authHeader =
        .error (403, "Invalid token")) ∧
    (∀ tok p, extractToken authHeader = some tok →
      jwtVerify secret now tok = some p →
      authenticateToken secret now authHeader = .ok p) := by
  refine ⟨?_, ?_, ?_⟩
  · intro h
    unfold authenticateToken
    rw [h]
  · intro tok h hv
    unfold authenticateToken
    simp only [h, hv]
  · intro tok p h hv
    unfold authenticateToken
    simp only [h, hv]

theorem authenticateToken_gate_witness :
    extractToken none = none ∧
    authenticateToken ("s") 5 none = .error (401, "No token provided") ∧
    extractToken (some ("Bearer bad")) = some ("bad") ∧
    jwtVerify ("s") 5 ("bad") = none ∧
    authenticateToken ("s") 5 (some ("Bearer bad")) =
      .error (403, "Invalid token") ∧
    extractToken exHdrA = some exTokA ∧
    jwtVerify ("s") 5 exTokA = some exPayloadA ∧
    authenticateToken ("s") 5 exHdrA = .ok exPayloadA :=
  ⟨rfl, (authenticateToken_gate ("s") 5 none).1 rfl,
   rfl, rfl,
   (authenticateToken_gate ("s") 5 (some ("Bearer bad"))).2.1 ("bad") rfl rfl,
   rfl, rfl,
   (authenticateToken_gate ("s") 5 exHdrA).2.2 exTokA exPayloadA rfl rfl⟩

/-- Claim C7: on an admin route, once the authentication gate has accepted
the token, the admin gate rejects with 403 Admin access required whenever
the token's role is not admin, and admits the request with the same
payload exactly when the role is admin. -/
theorem adminGate_role (secret : String) (now : Nat)
    (authHeader : Option String) (p : TokenPayload)
    (hauth : authenticateToken secret now authHeader = .ok p) :
    (p.role ≠ "admin" →
      adminGate secret now authHeader =
        .error (403, "Admin access required")) ∧
    (p.role = "admin" → adminGate secret now authHeader = .ok p) := by
  constructor
  · intro h
    unfold adminGate
    rw [hauth]
    unfold isAdmin
    simp [h]
  · intro h
    unfold adminGate
    rw [hauth]
    unfold isAdmin
    simp [h]

theorem adminGate_role_witness :
    authenticateToken ("s") 5 exHdrA = .ok exPayloadA ∧
    exPayloadA.role = "admin" ∧
    adminGate ("s") 5 exHdrA = .ok exPayloadA ∧
    authenticateToken ("s") 5 exHdrC = .ok exPayloadC ∧
    exPayloadC.role ≠ "admin" ∧
    adminGate ("s") 5 exHdrC = .error (403, "Admin access required") :=
  ⟨rfl, rfl,
   (adminGate_role ("s") 5 exHdrA exPayloadA rfl).2 rfl,
   rfl, by decide,
   (adminGate_role ("s") 5 exHdrC exPayloadC rfl).1 (by decide)⟩

/-! ### Review: helpers shared by the review claims -/

/-- Replacing the matched application in the store moves the update past
the lookup. -/
theorem find?_map_ite (l : List Application) (i : Nat) (a a2 : Application)
    (hid : a2.id = a.id)
    (hfind : l.find? (fun b => b.id == i) = some a) :
    (l.map (fun b => if b.id == a2.id then a2 else b)).find?
      (fun b => b.id == i) = some a2 := by
  have haieq : a.id = i := by simpa using List.find?_some hfind
  induction l with
  | nil => simp at hfind
  | cons x xs ih =>
    by_cases hx : ((x.id == i) = true)
    · simp only [List.find?_cons, hx] at hfind
      have hxa : x = a := by injection hfind
      subst hxa
      have hcond : (x.id == a2.id) = true := by simp [hid]
      have hgoal : (a2.id == i) = true := by simp [hid, haieq]
      simp only [List.map_cons, hcond, if_true, List.find?_cons, hgoal]
    · have hxf : (x.id == i) = false := by simpa using hx
      simp only [List.find?_cons, hxf] at hfind
      have hcond : (x.id == a2.id) = false := by
        rw [hid, haieq]
        exact hxf
      simp only [List.map_cons, hcond, Bool.false_eq_true, if_false,
        List.find?_cons, hxf]
      exact ih hfind

/-- Lookup after saving an update of the found application yields the
update. -/
theorem find?_saveApplication (db : DB) (i : Nat) (a a2 : Application)
    (hid : a2.id = a.id)
    (hfind : findApplicationById db i = some a) :
    findApplicationById (saveApplication db a2) i = some a2 :=
  find?_map_ite db.applications i a a2 hid hfind

/-- A review whose id resolves and whose decision is in the schema enum
saves the updated application. -/
theorem review_resolved_valid (db : DB) (appId : Nat) (a : Application)
    (decision remarks : String)
    (ha : findApplicationById db appId = some a)
    (hd : statusEnum.contains decision = true) :
    review db appId decision remarks =
      (.ok ("Application updated"),
        saveApplication db
          { a with status := decision, adminRemarks := some remarks }) := by
  unfold review
  simp only [ha, hd]
  rfl

/-- After such a review, the lookup returns the updated application. -/
theorem find_after_review (db : DB) (appId : Nat) (a : Application)
    (decision remarks : String)
    (ha : findApplicationById db appId = some a)
    (hd : statusEnum.contains decision = true) :
    findApplicationById (review db appId decision remarks).2 appId =
      some { a with status := decision, adminRemarks := some remarks } := by
  rw [review_resolved_valid db appId a decision remarks ha hd]
  exact find?_saveApplication db appId a _ rfl ha

/-! ### Fixtures for the review claims -/

/-- A pending application owned by user 1. -/
def exApp8 : Application := ⟨0, 1, 5, "f", "pending", none⟩

/-- A store holding only exApp8. -/
def exDB8 : DB := ⟨[], [exApp8], 2, 1⟩

/-- An already-approved application owned by user 1. -/
def exApp9 : Application := ⟨0, 1, 5, "f", "approved", some ("ok")⟩

/-- A store holding only exApp9. -/
def exDB9 : DB := ⟨[], [exApp9], 2, 1⟩

/-- Claim C8 counterexample: the application id resolves, yet with a
decision outside the schema's status enum the save fails mongoose
validation: the response is the 400 review error, the store is unchanged,
and the status is not set to the decision. -/
theorem review_nonenum_decision_cex :
    findApplicationById exDB8 0 = some exApp8 ∧
    review exDB8 0 ("banana") ("r") =
      (.err 400 ("Error reviewing application"), exDB8) ∧
    (findApplicationById (review exDB8 0 ("banana") ("r")).2 0).map
      Application.status ≠ some ("banana") := by decide

/-- Claim C8 (amended): for every review call: an unresolved id fails with
404 and the store is unchanged; a resolving id whose decision lies in the
schema's status enum has status := decision and adminRemarks := remarks
written in the same save, after which the owner's getStatus returns the
decision; a decision outside the enum fails the save with 400 and changes
nothing. -/
theorem review_contract (db : DB) (appId : Nat)
    (decision remarks : String) :
    (findApplicationById db appId = none →
      review db appId decision remarks =
        (.err 404 ("Application not found"), db)) ∧
    (∀ a, findApplicationById db appId = some a →
      statusEnum.contains decision = true →
      review db appId decision remarks =
        (.ok ("Application updated"),
          saveApplication db
            { a with status := decision, adminRemarks := some remarks }) ∧
      findApplicationById (review db appId decision remarks).2 appId =
        some { a with status := decision, adminRemarks := some remarks } ∧
      ∀ user : TokenPayload, user.id = a.userId →
        getStatus (review db appId decision remarks).2 appId user =
          .ok decision) ∧
    (∀ a, findApplicationById db appId = some a →
      statusEnum.contains decision = false →
      review db appId decision remarks =
        (.err 400 ("Error reviewing application"), db)) := by
  refine ⟨?_, ?_, ?_⟩
  · intro h
    unfold review
    rw [h]
  · intro a ha hd
    refine ⟨review_resolved_valid db appId a decision remarks ha hd,
      find_after_review db appId a decision remarks ha hd, ?_⟩
    intro user hu
    unfold getStatus
    rw [find_after_review db appId a decision remarks ha hd]
    simp [hu]
  · intro a ha hd
    unfold review
    simp only [ha, hd]
    rfl

theorem review_contract_witness :
    findApplicationById exDB8 7 = none ∧
    review exDB8 7 ("approved") ("ok") =
      (.err 404 ("Application not found"), exDB8) ∧
    findApplicationById exDB8 0 = some exApp8 ∧
    statusEnum.contains ("approved") = true ∧
    review exDB8 0 ("approved") ("ok") =
      (.ok ("Application updated"),
        saveApplication exDB8
          { exApp8 with status := "approved",
                        adminRemarks := some ("ok") }) ∧
    findApplicationById (review exDB8 0 ("approved") ("ok")).2 0 =
      some { exApp8 with status := "approved",
                         adminRemarks := some ("ok") } ∧
    exOwner.id = exApp8.userId ∧
    getStatus (review exDB8 0 ("approved") ("ok")).2 0 exOwner =
      .ok ("approved") :=
  ⟨rfl,
   (review_contract exDB8 7 ("approved") ("ok")).1 rfl,
   rfl, rfl,
   ((review_contract exDB8 0 ("approved") ("ok")).2.1 exApp8 rfl rfl).1,
   ((review_contract exDB8 0 ("approved") ("ok")).2.1 exApp8 rfl rfl).2.1,
   rfl,
   ((review_contract exDB8 0 ("approved") ("ok")).2.1 exApp8 rfl rfl).2.2
     exOwner rfl⟩

/-- Claim C9 counterexample: application 0 is stored as approved — a
terminal status per the claim — yet a further review overwrites it: the
status afterwards is rejected, so an operation of the system changed a
terminal status. -/
theorem review_terminal_overwritten_cex :
    exApp9.status = "approved" ∧
    findApplicationById exDB9 0 = some exApp9 ∧
    (findApplicationById (review exDB9 0 ("rejected") ("re")).2 0).map
      Application.status = some ("rejected") := by decide

/-- Claim C9 (amended): approved and rejected are not terminal: for any
stored application whose status is approved or rejected, a further review
with any decision from the schema enum overwrites the status with that
decision — the code never guards on the current status. -/
theorem review_overwrites_terminal_status (db : DB) (appId : Nat)
    (a : Application) (decision remarks : String)
    (hfind : findApplicationById db appId = some a)
    (hterm : a.status = "approved" ∨ a.status = "rejected")
    (hdec : statusEnum.contains decision = true) :
    (findApplicationById (review db appId decision remarks).2 appId).map
      Application.status = some decision := by
  rw [find_after_review db appId a decision remarks hfind hdec]
  rfl

theorem review_overwrites_terminal_status_witness :
    findApplicationById exDB9 0 = some exApp9 ∧
    (exApp9.status = "approved" ∨ exApp9.status = "rejected") ∧
    statusEnum.contains ("rejected") = true ∧
    (findApplicationById (review exDB9 0 ("rejected") ("re")).2 0).map
      Application.status = some ("rejected") :=
  ⟨rfl, Or.inl rfl, rfl,
   review_overwrites_terminal_status exDB9 0 exApp9 ("rejected") ("re")
     rfl (Or.inl rfl) rfl⟩

/-! ### Header splitting: helpers for the role-escalation claim -/

/-- Whether a char list contains the character. -/
def hasChar (sep : Char) : List Char → Bool
  | [] => false
  | c :: cs => c == sep || hasChar sep cs

theorem splitChars_of_not_hasChar (sep : Char) (l : List Char)
    (h : hasChar sep l = false) : splitChars sep l = [l] := by
  induction l with
  | nil => rfl
  | cons c cs ih =>
    rw [hasChar] at h
    have h1 : (c == sep) = false := by
      cases hc : (c == sep)
      · rfl
      · rw [hc] at h
        simp at h
    have h2 : hasChar sep cs = false := by
      cases hc : hasChar sep cs
      · rfl
      · rw [hc] at h
        simp at h
    unfold splitChars
    simp only [h1, Bool.false_eq_true, if_false, ih h2]

theorem splitChars_cons_ne (sep c : Char) (cs h0 : List Char)
    (t0 : List (List Char)) (h : (c == sep) = false)
    (hrec : splitChars sep cs = h0 :: t0) :
    splitChars sep (c :: cs) = (c :: h0) :: t0 := by
  unfold splitChars
  simp only [h, Bool.false_eq_true, if_false, hrec]

theorem splitChars_cons_sep (sep : Char) (cs : List Char) :
    splitChars sep (sep :: cs) = [] :: splitChars sep cs := by
  show (let r := splitChars sep cs;
    if sep == sep then [] :: r
    else
      match r with
      | [] => [[sep]]
      | h :: t => (sep :: h) :: t) = [] :: splitChars sep cs
  simp

theorem splitChars_bearer (t : List Char) (h : hasChar (' ') t = false) :
    splitChars (' ') (("Bearer ").data ++ t) = [("Bearer").data, t] := by
  have h0 : splitChars (' ') (' ' :: t) = [] :: [t] := by
    rw [splitChars_cons_sep, splitChars_of_not_hasChar (' ') t h]
  have h1 := splitChars_cons_ne (' ') 'r' (' ' :: t) [] [t] (by decide) h0
  have h2 := splitChars_cons_ne (' ') 'e' _ _ _ (by decide) h1
  have h3 := splitChars_cons_ne (' ') 'r' _ _ _ (by decide) h2
  have h4 := splitChars_cons_ne (' ') 'a' _ _ _ (by decide) h3
  have h5 := splitChars_cons_ne (' ') 'e' _ _ _ (by decide) h4
  have h6 := splitChars_cons_ne (' ') 'B' _ _ _ (by decide) h5
  exact h6

theorem extractToken_bearer (t : String) (hne : t.data.isEmpty = false)
    (h : hasChar (' ') t.data = false) :
    extractToken (some (("Bearer ") ++ t)) = some t := by
  obtain ⟨cs⟩ := t
  have hne2 : cs.isEmpty = false := hne
  show (match (splitChars (' ') (("Bearer ").data ++ cs))[1]? with
    | none => none
    | some t => if t.isEmpty = true then none else some (String.mk t)) =
    some (String.mk cs)
  rw [splitChars_bearer cs h]
  show (if cs.isEmpty = true then none else some (String.mk cs)) =
    some (String.mk cs)
  rw [hne2]
  rfl

theorem hasChar_append (sep : Char) (l1 l2 : List Char) :
    hasChar sep (l1 ++ l2) = (hasChar sep l1 || hasChar sep l2) := by
  induction l1 with
  | nil => simp [hasChar]
  | cons c cs ih => simp [hasChar, ih, Bool.or_assoc]

theorem hasChar_space_encNat (n : Nat) :
    hasChar (' ') (encNat n) = false := by
  induction n with
  | zero => rfl
  | succ k ih =>
    show (('x' == ' ') || hasChar (' ') (encNat k)) = false
    rw [ih]
    decide

theorem hasChar_space_encStr (s : String)
    (h : hasChar (' ') s.data = false) :
    hasChar (' ') (encStr s) = false := by
  rw [encStr, hasChar_append, hasChar_space_encNat, h]
  decide

theorem hasChar_space_tokenSig (secret : String) (p : TokenPayload)
    (exp : Nat) (hs : hasChar (' ') secret.data = false)
    (hr : hasChar (' ') p.role.data = false)
    (he : hasChar (' ') p.email.data = false) :
    hasChar (' ') (tokenSig secret p exp).data = false := by
  show hasChar (' ') (encStr secret ++ encNat p.id ++ encStr p.role ++
    encStr p.email ++ encNat exp) = false
  rw [hasChar_append, hasChar_append, hasChar_append, hasChar_append,
    hasChar_space_encNat, hasChar_space_encNat,
    hasChar_space_encStr secret hs, hasChar_space_encStr p.role hr,
    hasChar_space_encStr p.email he]
  decide

theorem hasChar_space_encodeToken (t : Token)
    (hr : hasChar (' ') t.payload.role.data = false)
    (he : hasChar (' ') t.payload.email.data = false)
    (hs : hasChar (' ') t.sig.data = false) :
    hasChar (' ') (encodeToken t).data = false := by
  show hasChar (' ') (encNat t.payload.id ++ encNat t.exp ++
    encStr t.payload.role ++ encStr t.payload.email ++ encStr t.sig) = false
  rw [hasChar_append, hasChar_append, hasChar_append, hasChar_append,
    hasChar_space_encNat, hasChar_space_encNat,
    hasChar_space_encStr t.payload.role hr,
    hasChar_space_encStr t.payload.email he,
    hasChar_space_encStr t.sig hs]
  decide

theorem isEmpty_encNat_append (n : Nat) (rest : List Char) :
    (encNat n ++ rest).isEmpty = false := by
  cases n <;> rfl

/-- Claim C10: the register endpoint persists whatever enum role the
unauthenticated request body supplies: registering a fresh email with the
role admin stores an admin user, the subsequent login returns a token
carrying the admin role, and presenting that token as a bearer token
passes the admin gate — no authorization check guards role assignment. -/
theorem register_unauthenticated_admin_role (hash : String → String)
    (secret : String) (now : Nat) (db : DB)
    (email password : Option String)
    (he : falsy email = false) (hp : falsy password = false)
    (hnew : findUserByEmail db (email.getD "") = none)
    (hse : hasChar (' ') secret.data = false)
    (hem : hasChar (' ') ((email.getD "")).data = false) :
    ∃ u : User,
      findUserByEmail (register hash db email password (some ("admin"))).2
        (email.getD "") = some u ∧
      u.role = "admin" ∧
      ∃ tok : String,
        login hash secret now
            (register hash db email password (some ("admin"))).2
            email password = .ok tok ("admin") (email.getD "") ∧
        jwtVerify secret now tok = some ⟨u.id, "admin", u.email⟩ ∧
        adminGate secret now (some (("Bearer ") ++ tok)) =
          .ok ⟨u.id, "admin", u.email⟩ := by
  have hrole : roleEnum.contains (effRole (some ("admin"))) = true := rfl
  refine ⟨⟨db.nextUserId, email.getD "", hash (password.getD ""), "admin"⟩,
    findUser_after_register hash db email password (some ("admin")) he hp
      hnew hrole,
    rfl,
    jwtSign secret ⟨db.nextUserId, "admin", email.getD ""⟩ 86400 now,
    login_after_register hash secret now db email password (some ("admin"))
      he hp hnew hrole,
    jwtVerify_jwtSign secret _ 86400 now (by norm_num), ?_⟩
  have hnospace : hasChar (' ')
      (jwtSign secret ⟨db.nextUserId, "admin", email.getD ""⟩
        86400 now).data = false := by
    unfold jwtSign
    exact hasChar_space_encodeToken
      ⟨⟨db.nextUserId, "admin", email.getD ""⟩, now + 86400,
        tokenSig secret ⟨db.nextUserId, "admin", email.getD ""⟩
          (now + 86400)⟩
      (show hasChar (' ') (("admin") : String).data = false by decide) hem
      (hasChar_space_tokenSig secret
        ⟨db.nextUserId, "admin", email.getD ""⟩ (now + 86400) hse
        (show hasChar (' ') (("admin") : String).data = false by decide)
        hem)
  have hnonempty : (jwtSign secret ⟨db.nextUserId, "admin", email.getD ""⟩
      86400 now).data.isEmpty = false := by
    unfold jwtSign encodeToken
    show (encNat db.nextUserId ++ encNat (now + 86400) ++
      encStr ("admin") ++ encStr (email.getD "") ++
      encStr (tokenSig secret ⟨db.nextUserId, "admin", email.getD ""⟩
        (now + 86400))).isEmpty = false
    simp only [List.append_assoc]
    exact isEmpty_encNat_append _ _
  have hex := extractToken_bearer
    (jwtSign secret ⟨db.nextUserId, "admin", email.getD ""⟩ 86400 now)
    hnonempty hnospace
  have hv : jwtVerify secret now
      (jwtSign secret ⟨db.nextUserId, "admin", email.getD ""⟩ 86400 now) =
      some ⟨db.nextUserId, "admin", email.getD ""⟩ :=
    jwtVerify_jwtSign secret _ 86400 now (by norm_num)
  unfold adminGate authenticateToken
  simp only [hex, hv]
  rfl

theorem register_unauthenticated_admin_role_witness :
    falsy (some ("eve@x")) = false ∧ falsy (some ("pw")) = false ∧
    findUserByEmail exDB0 ((some ("eve@x")).getD "") = none ∧
    hasChar (' ') (("sec")).data = false ∧
    hasChar (' ') ((((some ("eve@x"))).getD "")).data = false ∧
    (∃ u : User,
      findUserByEmail
        (register exHash exDB0 (some ("eve@x")) (some ("pw"))
          (some ("admin"))).2 ((some ("eve@x")).getD "") = some u ∧
      u.role = "admin" ∧
      ∃ tok : String,
        login exHash ("sec") 3
            (register exHash exDB0 (some ("eve@x")) (some ("pw"))
              (some ("admin"))).2
            (some ("eve@x")) (some ("pw")) =
          .ok tok ("admin") ((some ("eve@x")).getD "") ∧
        jwtVerify ("sec") 3 tok = some ⟨u.id, "admin", u.email⟩ ∧
        adminGate ("sec") 3 (some (("Bearer ") ++ tok)) =
          .ok ⟨u.id, "admin", u.email⟩) :=
  ⟨rfl, rfl, rfl, by decide, by decide,
   register_unauthenticated_admin_role exHash ("sec") 3 exDB0
     (some ("eve@x")) (some ("pw")) rfl rfl rfl (by decide) (by decide)⟩

end SchemePortal
